import Mathlib

set_option maxHeartbeats 1000000

/-!
Shallow embedding of `pcdet/models/dense_heads/anchor_head_single.py`
(class `AnchorHeadSingle`, subclass of `AnchorHeadTemplate`).

Modelling choices:
* Tensors are idealized as 4-D arrays of rationals with an explicit dtype tag;
  `permute(0, 2, 3, 1)` and `view(b, -1, c)` are modelled concretely
  (`contiguous()` is the identity in this model).
* Python dicts are total functions `String → Option Val`; a missing key is
  `none`.  Indexing a missing key (Python `KeyError`) and calling a method on
  `None` (Python `AttributeError`) are both modelled by the enclosing
  computation returning `none`.
* The superclass collaborators that live outside this file
  (`nn.Conv2d.__call__`, `assign_targets`, `generate_predicted_boxes`,
  `_get_one_hot_box_labels`, `_get_cls_weights`, `_get_weighted_loss`) are
  abstract function parameters: the theorems hold for every instantiation.
* The per-class anchor counts produced by the superclass constructor are a
  parameter `anchors_per_location : List Nat`; the child constructor sums it,
  exactly as `self.num_anchors_per_location = sum(self.num_anchors_per_location)`.
* The float constant `-np.log((1 - pi) / pi)` with `pi = 0.01` used in
  `init_weights`, and the random normal sample for `conv_box.weight`, are
  parameters (`clsBiasInit`, `boxWeightSample`): no claim reads them.
-/

inductive DType where
  | float16
  | float32
  | float64
deriving DecidableEq, Repr

/-- A 4-D tensor `[d0, d1, d2, d3]` with rational entries. -/
structure Tensor4 where
  d0 : Nat
  d1 : Nat
  d2 : Nat
  d3 : Nat
  dtype : DType
  data : Nat → Nat → Nat → Nat → ℚ

/-- A 3-D tensor, the result of `view(batch_size, -1, n)`. -/
structure Tensor3 where
  e0 : Nat
  e1 : Nat
  e2 : Nat
  dtype : DType
  data : Nat → Nat → Nat → ℚ

/-- `t.permute(0, 2, 3, 1)`: axis order `[N, C, H, W] → [N, H, W, C]`. -/
def Tensor4.permute0231 (t : Tensor4) : Tensor4 :=
  { d0 := t.d0, d1 := t.d2, d2 := t.d3, d3 := t.d1, dtype := t.dtype,
    data := fun i j k l => t.data i l j k }

def Tensor4.numel (t : Tensor4) : Nat := t.d0 * t.d1 * t.d2 * t.d3

/-- Row-major linearized read. -/
def Tensor4.flatGet (t : Tensor4) (i : Nat) : ℚ :=
  t.data (i / (t.d1 * t.d2 * t.d3)) (i / (t.d2 * t.d3) % t.d1) (i / t.d3 % t.d2) (i % t.d3)

/-- `t.view(b, -1, c)`: reinterpret the row-major data as `[b, numel / (b*c), c]`. -/
def Tensor4.view3 (t : Tensor4) (b c : Nat) : Tensor3 :=
  { e0 := b, e1 := t.numel / (b * c), e2 := c, dtype := t.dtype,
    data := fun i j k => t.flatGet ((i * (t.numel / (b * c)) + j) * c + k) }

/-- Values stored in the Python dicts this file manipulates. -/
inductive Val where
  | tensor : Tensor4 → Val
  | nat : Nat → Val
  | bool : Bool → Val

def Dict : Type := String → Option Val

def Dict.empty : Dict := fun _ => none

/-- `d[k] = v` (in-place write, functionally). -/
def Dict.insert (d : Dict) (k : String) (v : Val) : Dict :=
  fun q => if q = k then some v else d q

/-- `d.update(t)`: entries of `t` override entries of `d`. -/
def Dict.update (d t : Dict) : Dict :=
  fun q =>
    match t q with
    | some v => some v
    | none => d q

/-- Reading key `k` expecting a tensor; `none` models both a missing key and a
stored value on which tensor methods would fail. -/
def Dict.getTensor (d : Dict) (k : String) : Option Tensor4 :=
  match d k with
  | some (Val.tensor t) => some t
  | _ => none

def Dict.getNat (d : Dict) (k : String) : Option Nat :=
  match d k with
  | some (Val.nat n) => some n
  | _ => none

/-- `nn.Conv2d(in_channels, out_channels, kernel_size=1)`: the configuration
and learnable parameters; the convolution semantics is an abstract parameter
of `forward`. -/
structure Conv2d where
  in_channels : Nat
  out_channels : Nat
  kernel_size : Nat
  weight : Nat → Nat → Nat → Nat → ℚ
  bias : Nat → ℚ

/-- The slice of `model_cfg` this file reads.
`use_direction_classifier = none` models both a missing
`USE_DIRECTION_CLASSIFIER` entry and one stored as `None`
(both make `model_cfg.get('USE_DIRECTION_CLASSIFIER', None)` return `None`). -/
structure ModelCfg where
  use_direction_classifier : Option Bool
  num_dir_bins : Nat

structure AnchorHeadSingle where
  model_cfg : ModelCfg
  num_class : List Nat
  box_coder_code_size : Nat
  num_anchors_per_location : Nat
  conv_cls : Conv2d
  conv_box : Conv2d
  conv_type_cls : Conv2d
  conv_dir_cls : Option Conv2d
  training : Bool
  predict_boxes_when_training : Bool
  forward_ret_dict : Dict

/-- `AnchorHeadSingle.init_weights`.  `clsBiasInit` stands for the float
`-np.log((1 - 0.01) / 0.01)` and `boxWeightSample` for the normal sample with
`mean=0, std=0.001`; both are produced by the numerical runtime. -/
def AnchorHeadSingle.init_weights (self : AnchorHeadSingle) (clsBiasInit : ℚ)
    (boxWeightSample : Nat → Nat → Nat → Nat → ℚ) : AnchorHeadSingle :=
  { self with
    conv_cls := { self.conv_cls with bias := fun _ => clsBiasInit },
    conv_type_cls := { self.conv_type_cls with bias := fun _ => clsBiasInit },
    conv_box := { self.conv_box with weight := boxWeightSample } }

/-- `AnchorHeadSingle.__init__`.  `anchors_per_location` is the per-class
anchor-count list installed by `super().__init__` (the child immediately
replaces it by its sum); `box_coder_code_size` is `self.box_coder.code_size`;
the fresh `Conv2d` weights and biases before `init_weights` are arbitrary
(zero here): `init_weights` is called last, exactly as in the source. -/
def mkAnchorHeadSingle (model_cfg : ModelCfg) (input_channels : Nat)
    (num_class : List Nat) (anchors_per_location : List Nat)
    (box_coder_code_size : Nat) (predict_boxes_when_training : Bool)
    (training : Bool) (clsBiasInit : ℚ)
    (boxWeightSample : Nat → Nat → Nat → Nat → ℚ) : AnchorHeadSingle :=
  AnchorHeadSingle.init_weights
    { model_cfg := model_cfg
      num_class := num_class
      box_coder_code_size := box_coder_code_size
      num_anchors_per_location := anchors_per_location.sum
      conv_cls :=
        { in_channels := input_channels
          out_channels := anchors_per_location.sum * num_class.getD 0 0
          kernel_size := 1
          weight := fun _ _ _ _ => 0
          bias := fun _ => 0 }
      conv_box :=
        { in_channels := input_channels
          out_channels := anchors_per_location.sum * box_coder_code_size
          kernel_size := 1
          weight := fun _ _ _ _ => 0
          bias := fun _ => 0 }
      conv_type_cls :=
        { in_channels := input_channels
          out_channels := anchors_per_location.sum * num_class.getD 1 0
          kernel_size := 1
          weight := fun _ _ _ _ => 0
          bias := fun _ => 0 }
      conv_dir_cls :=
        if model_cfg.use_direction_classifier.isSome then
          some
            { in_channels := input_channels
              out_channels := anchors_per_location.sum * model_cfg.num_dir_bins
              kernel_size := 1
              weight := fun _ _ _ _ => 0
              bias := fun _ => 0 }
        else none
      training := training
      predict_boxes_when_training := predict_boxes_when_training
      forward_ret_dict := Dict.empty }
    clsBiasInit boxWeightSample

/-- `AnchorHeadSingle.forward(data_dict)`.

Abstract collaborators:
* `convApply c t` — `c(t)` for an `nn.Conv2d` module `c`;
* `assignTargets gt` — `self.assign_targets(gt_boxes=gt)` (superclass);
* `genBoxes bs cls box dir` — `self.generate_predicted_boxes(batch_size=bs,
  cls_preds=cls, box_preds=box, dir_cls_preds=dir)` (superclass).

Returns the updated module state (its mutated `forward_ret_dict`) together
with the returned `data_dict`; `none` models a raised `KeyError`. -/
def AnchorHeadSingle.forward
    (convApply : Conv2d → Tensor4 → Tensor4)
    (assignTargets : Tensor4 → Dict)
    (genBoxes : Nat → Tensor4 → Tensor4 → Option Tensor4 → Tensor4 × Tensor4)
    (self : AnchorHeadSingle) (data_dict : Dict) :
    Option (AnchorHeadSingle × Dict) :=
  match data_dict.getTensor "spatial_features_2d" with
  | none => none
  | some spatial_features_2d =>
    let cls_preds := (convApply self.conv_cls spatial_features_2d).permute0231
    let box_preds := (convApply self.conv_box spatial_features_2d).permute0231
    let cls_type_preds := (convApply self.conv_type_cls spatial_features_2d).permute0231
    let frd0 :=
      ((self.forward_ret_dict.insert "cls_preds" (Val.tensor cls_preds)).insert
        "box_preds" (Val.tensor box_preds)).insert
        "cls_type_preds" (Val.tensor cls_type_preds)
    let dir_cls_preds : Option Tensor4 :=
      match self.conv_dir_cls with
      | some conv => some (convApply conv spatial_features_2d).permute0231
      | none => none
    let frd1 :=
      match dir_cls_preds with
      | some d => frd0.insert "dir_cls_preds" (Val.tensor d)
      | none => frd0
    let trained : Option Dict :=
      if self.training then
        match data_dict.getTensor "gt_boxes" with
        | none => none
        | some gt_boxes => some (frd1.update (assignTargets gt_boxes))
      else some frd1
    match trained with
    | none => none
    | some frd2 =>
      if !self.training || self.predict_boxes_when_training then
        match data_dict.getNat "batch_size" with
        | none => none
        | some batch_size =>
          let p := genBoxes batch_size cls_preds box_preds dir_cls_preds
          let q := genBoxes batch_size cls_type_preds box_preds none
          let data_dict2 :=
            (((data_dict.insert "batch_cls_preds" (Val.tensor p.1)).insert
              "batch_box_preds" (Val.tensor p.2)).insert
              "batch_cls_type_preds" (Val.tensor q.1)).insert
              "cls_preds_normalized" (Val.bool false)
          some ({ self with forward_ret_dict := frd2 }, data_dict2)
      else some ({ self with forward_ret_dict := frd2 }, data_dict)

/-- `AnchorHeadSingle.get_cls_layer_loss`.

Abstract collaborators (superclass `AnchorHeadTemplate`):
* `getOneHot labels n dt` — `self._get_one_hot_box_labels(box_cls_labels=labels,
  n_labels=n, dtype=dt)`;
* `getClsWeights labels` — `self._get_cls_weights(labels)`;
* `getWeightedLoss preds targets weights bs` — `self._get_weighted_loss(...)`,
  a scalar (losses are idealized as rationals, `.item()` is the identity).

Returns `(cls_loss, tb_dict)` with `tb_dict` an insertion-ordered association
list; `none` models the exception raised when `forward_ret_dict` lacks
`cls_preds` or `box_cls_labels` (`KeyError`) or holds no usable
`cls_type_preds` / `box_cls_type_labels` (`.get` returns `None`, then
`cls_type_preds.dtype` and the loss helpers dereference it). -/
def AnchorHeadSingle.get_cls_layer_loss
    (getOneHot : Tensor4 → Nat → DType → Tensor3)
    (getClsWeights : Tensor4 → Tensor4)
    (getWeightedLoss : Tensor3 → Tensor3 → Tensor4 → Nat → ℚ)
    (self : AnchorHeadSingle) : Option (ℚ × List (String × ℚ)) :=
  match self.forward_ret_dict.getTensor "cls_preds" with
  | none => none
  | some cls_preds =>
  match self.forward_ret_dict.getTensor "box_cls_labels" with
  | none => none
  | some box_cls_labels =>
    let one_hot_targets :=
      getOneHot box_cls_labels (self.num_class.getD 0 0) cls_preds.dtype
    let cls_weights := getClsWeights box_cls_labels
    let batch_size := cls_preds.d0
    let cls_fdi_loss :=
      getWeightedLoss (cls_preds.view3 batch_size (self.num_class.getD 0 0))
        one_hot_targets cls_weights batch_size
    match self.forward_ret_dict.getTensor "cls_type_preds" with
    | none => none
    | some cls_type_preds =>
    match self.forward_ret_dict.getTensor "box_cls_type_labels" with
    | none => none
    | some box_cls_type_labels =>
      let one_hot_type_targets :=
        getOneHot box_cls_type_labels (self.num_class.getD 1 0) cls_type_preds.dtype
      let cls_type_weights := getClsWeights box_cls_type_labels
      let cls_type_loss :=
        getWeightedLoss (cls_type_preds.view3 batch_size (self.num_class.getD 1 0))
          one_hot_type_targets cls_type_weights batch_size
      let cls_loss := cls_fdi_loss + cls_type_loss
      some (cls_loss,
        [("rpn_loss_type_cls", cls_type_loss),
         ("rpn_loss_fdi_cls", cls_fdi_loss),
         ("rpn_loss_cls", cls_loss)])

/-! ### Concrete fixtures used by witnesses and counterexamples -/

/-- A small concrete tensor. -/
def wT : Tensor4 :=
  { d0 := 1, d1 := 2, d2 := 3, d3 := 4, dtype := DType.float32, data := fun _ _ _ _ => 0 }

/-- A concrete convolution semantics (identity on the tensor argument). -/
def wConvApply : Conv2d → Tensor4 → Tensor4 := fun _ t => t

/-- A concrete `assign_targets`: returns exactly the keys the source comment
documents (`box_cls_labels`, `box_reg_targets`, `reg_weights`) plus the type
labels the loss needs. -/
def wAssignTargets : Tensor4 → Dict := fun gt =>
  (((Dict.empty.insert "box_cls_labels" (Val.tensor gt)).insert
    "box_reg_targets" (Val.tensor gt)).insert
    "reg_weights" (Val.tensor gt)).insert
    "box_cls_type_labels" (Val.tensor gt)

/-- A concrete `generate_predicted_boxes`. -/
def wGenBoxes : Nat → Tensor4 → Tensor4 → Option Tensor4 → Tensor4 × Tensor4 :=
  fun _ c b _ => (c, b)

def wGetOneHot : Tensor4 → Nat → DType → Tensor3 :=
  fun t n dt => { e0 := t.d0, e1 := t.d1, e2 := n, dtype := dt, data := fun _ _ _ => 0 }

def wGetClsWeights : Tensor4 → Tensor4 := fun t => t

def wGetWeightedLoss : Tensor3 → Tensor3 → Tensor4 → Nat → ℚ := fun _ _ _ _ => 1

def wCfg : ModelCfg := { use_direction_classifier := some true, num_dir_bins := 2 }

def wCfgNoDir : ModelCfg := { use_direction_classifier := none, num_dir_bins := 2 }

/-- A concrete head in training mode with `predict_boxes_when_training = True`. -/
def wHeadTrain : AnchorHeadSingle :=
  mkAnchorHeadSingle wCfg 64 [3, 2] [2, 2] 7 true true 0 (fun _ _ _ _ => 0)

/-- A concrete head in training mode with `predict_boxes_when_training = False`. -/
def cxHead : AnchorHeadSingle :=
  mkAnchorHeadSingle wCfgNoDir 64 [3, 2] [2, 2] 7 false true 0 (fun _ _ _ _ => 0)

/-- A concrete input `data_dict`. -/
def wDD : Dict :=
  ((Dict.empty.insert "spatial_features_2d" (Val.tensor wT)).insert
    "gt_boxes" (Val.tensor wT)).insert
    "batch_size" (Val.nat 1)

/-- A concrete head whose `forward_ret_dict` holds the four entries
`get_cls_layer_loss` reads. -/
def wLossHead : AnchorHeadSingle :=
  { wHeadTrain with
    forward_ret_dict :=
      (((Dict.empty.insert "cls_preds" (Val.tensor wT)).insert
        "box_cls_labels" (Val.tensor wT)).insert
        "cls_type_preds" (Val.tensor wT)).insert
        "box_cls_type_labels" (Val.tensor wT) }

/-! ### Helper lemmas about the dict model -/

theorem Dict.insert_same (d : Dict) (k : String) (v : Val) :
    (d.insert k v) k = some v := by
  simp [Dict.insert]

theorem Dict.insert_ne (d : Dict) (k q : String) (v : Val) (h : q ≠ k) :
    (d.insert k v) q = d q := by
  simp [Dict.insert, h]

theorem Dict.update_of_some (d t : Dict) (k : String) (v : Val) (h : t k = some v) :
    (d.update t) k = some v := by
  simp [Dict.update, h]

theorem Dict.update_of_none (d t : Dict) (k : String) (h : t k = none) :
    (d.update t) k = d k := by
  simp [Dict.update, h]

theorem Dict.update_isSome (d t : Dict) (k : String) (h : (d k).isSome = true) :
    ((d.update t) k).isSome = true := by
  unfold Dict.update
  cases ht : t k <;> simp [ht, h]

/-! ### Claim theorems -/

/-- C1: every call of `forward` applies `conv_cls`, `conv_box` and
`conv_type_cls` to the same input tensor `data_dict['spatial_features_2d']`,
and stores the results — each permuted from `[N, C, H, W]` to `[N, H, W, C]` —
in `forward_ret_dict` under the keys `cls_preds` (object-category scores),
`box_preds` (box regression) and `cls_type_preds` (auxiliary type-category
scores).  The training-mode hypothesis that `assign_targets` does not emit
these three keys matches the source comment (it emits `box_cls_labels`,
`box_reg_targets`, `reg_weights`). -/
theorem forward_stores_permuted_conv_outputs
    (cA : Conv2d → Tensor4 → Tensor4) (aT : Tensor4 → Dict)
    (gB : Nat → Tensor4 → Tensor4 → Option Tensor4 → Tensor4 × Tensor4)
    (self : AnchorHeadSingle) (dd : Dict) (sf : Tensor4)
    (hsf : dd.getTensor "spatial_features_2d" = some sf)
    (hgt : self.training = true → ∃ gt, dd.getTensor "gt_boxes" = some gt ∧
      aT gt "cls_preds" = none ∧ aT gt "box_preds" = none ∧ aT gt "cls_type_preds" = none)
    (hbs : (!self.training || self.predict_boxes_when_training) = true →
      ∃ bs, dd.getNat "batch_size" = some bs) :
    ∃ s' d', AnchorHeadSingle.forward cA aT gB self dd = some (s', d') ∧
      s'.forward_ret_dict "cls_preds" = some (Val.tensor (cA self.conv_cls sf).permute0231) ∧
      s'.forward_ret_dict "box_preds" = some (Val.tensor (cA self.conv_box sf).permute0231) ∧
      s'.forward_ret_dict "cls_type_preds" = some (Val.tensor (cA self.conv_type_cls sf).permute0231) := by
  unfold AnchorHeadSingle.forward
  rw [hsf]
  dsimp only
  cases hT : self.training with
  | true =>
    obtain ⟨gt, hgt1, hc1, hc2, hc3⟩ := hgt hT
    rw [hgt1]
    dsimp only
    simp only [reduceIte, Bool.not_true, Bool.false_or]
    cases hD : self.conv_dir_cls with
    | none =>
      cases hP : self.predict_boxes_when_training with
      | true =>
        obtain ⟨bs, hbs1⟩ := hbs (by rw [hT, hP]; rfl)
        rw [hbs1]
        dsimp only
        refine ⟨_, _, rfl, ?_, ?_, ?_⟩ <;> dsimp only
        · rw [Dict.update_of_none _ _ _ hc1, Dict.insert_ne _ _ _ _ (by decide),
            Dict.insert_ne _ _ _ _ (by decide), Dict.insert_same]
        · rw [Dict.update_of_none _ _ _ hc2, Dict.insert_ne _ _ _ _ (by decide),
            Dict.insert_same]
        · rw [Dict.update_of_none _ _ _ hc3, Dict.insert_same]
      | false =>
        dsimp only
        refine ⟨_, _, rfl, ?_, ?_, ?_⟩ <;> dsimp only
        · rw [Dict.update_of_none _ _ _ hc1, Dict.insert_ne _ _ _ _ (by decide),
            Dict.insert_ne _ _ _ _ (by decide), Dict.insert_same]
        · rw [Dict.update_of_none _ _ _ hc2, Dict.insert_ne _ _ _ _ (by decide),
            Dict.insert_same]
        · rw [Dict.update_of_none _ _ _ hc3, Dict.insert_same]
    | some c =>
      cases hP : self.predict_boxes_when_training with
      | true =>
        obtain ⟨bs, hbs1⟩ := hbs (by rw [hT, hP]; rfl)
        rw [hbs1]
        dsimp only
        refine ⟨_, _, rfl, ?_, ?_, ?_⟩ <;> dsimp only
        · rw [Dict.update_of_none _ _ _ hc1, Dict.insert_ne _ _ _ _ (by decide),
            Dict.insert_ne _ _ _ _ (by decide), Dict.insert_ne _ _ _ _ (by decide),
            Dict.insert_same]
        · rw [Dict.update_of_none _ _ _ hc2, Dict.insert_ne _ _ _ _ (by decide),
            Dict.insert_ne _ _ _ _ (by decide), Dict.insert_same]
        · rw [Dict.update_of_none _ _ _ hc3, Dict.insert_ne _ _ _ _ (by decide),
            Dict.insert_same]
      | false =>
        dsimp only
        refine ⟨_, _, rfl, ?_, ?_, ?_⟩ <;> dsimp only
        · rw [Dict.update_of_none _ _ _ hc1, Dict.insert_ne _ _ _ _ (by decide),
            Dict.insert_ne _ _ _ _ (by decide), Dict.insert_ne _ _ _ _ (by decide),
            Dict.insert_same]
        · rw [Dict.update_of_none _ _ _ hc2, Dict.insert_ne _ _ _ _ (by decide),
            Dict.insert_ne _ _ _ _ (by decide), Dict.insert_same]
        · rw [Dict.update_of_none _ _ _ hc3, Dict.insert_ne _ _ _ _ (by decide),
            Dict.insert_same]
  | false =>
    simp only [reduceIte, Bool.not_false, Bool.true_or]
    obtain ⟨bs, hbs1⟩ := hbs (by rw [hT]; rfl)
    rw [hbs1]
    dsimp only
    cases hD : self.conv_dir_cls with
    | none =>
      refine ⟨_, _, rfl, ?_, ?_, ?_⟩ <;> dsimp only
      · rw [Dict.insert_ne _ _ _ _ (by decide), Dict.insert_ne _ _ _ _ (by decide),
          Dict.insert_same]
      · rw [Dict.insert_ne _ _ _ _ (by decide), Dict.insert_same]
      · rw [Dict.insert_same]
    | some c =>
      refine ⟨_, _, rfl, ?_, ?_, ?_⟩ <;> dsimp only
      · rw [Dict.insert_ne _ _ _ _ (by decide), Dict.insert_ne _ _ _ _ (by decide),
          Dict.insert_ne _ _ _ _ (by decide), Dict.insert_same]
      · rw [Dict.insert_ne _ _ _ _ (by decide), Dict.insert_ne _ _ _ _ (by decide),
          Dict.insert_same]
      · rw [Dict.insert_ne _ _ _ _ (by decide), Dict.insert_same]

/-- Witness for C1 at a concrete training-mode head and input dict. -/
theorem forward_stores_permuted_conv_outputs_witness :
    ∃ s' d', AnchorHeadSingle.forward wConvApply wAssignTargets wGenBoxes wHeadTrain wDD
        = some (s', d') ∧
      s'.forward_ret_dict "cls_preds" =
        some (Val.tensor (wConvApply wHeadTrain.conv_cls wT).permute0231) ∧
      s'.forward_ret_dict "box_preds" =
        some (Val.tensor (wConvApply wHeadTrain.conv_box wT).permute0231) ∧
      s'.forward_ret_dict "cls_type_preds" =
        some (Val.tensor (wConvApply wHeadTrain.conv_type_cls wT).permute0231) :=
  forward_stores_permuted_conv_outputs wConvApply wAssignTargets wGenBoxes wHeadTrain wDD wT
    rfl (fun _ => ⟨wT, rfl, rfl, rfl, rfl⟩) (fun _ => ⟨1, rfl⟩)

/-- C3: heading/direction classification is optional. -/
theorem conv_dir_cls_optional
    (model_cfg : ModelCfg) (ic : Nat) (nc apl : List Nat) (ccs : Nat)
    (pbwt tr : Bool) (cb : ℚ) (bw : Nat → Nat → Nat → Nat → ℚ)
    (cA : Conv2d → Tensor4 → Tensor4) (aT : Tensor4 → Dict)
    (gB : Nat → Tensor4 → Tensor4 → Option Tensor4 → Tensor4 × Tensor4)
    (self : AnchorHeadSingle) (dd : Dict) (sf : Tensor4)
    (hsf : dd.getTensor "spatial_features_2d" = some sf)
    (hfrd : self.forward_ret_dict "dir_cls_preds" = none)
    (hgt : self.training = true → ∃ gt, dd.getTensor "gt_boxes" = some gt ∧
      aT gt "dir_cls_preds" = none)
    (hbs : (!self.training || self.predict_boxes_when_training) = true →
      ∃ bs, dd.getNat "batch_size" = some bs) :
    ((mkAnchorHeadSingle model_cfg ic nc apl ccs pbwt tr cb bw).conv_dir_cls.isSome ↔
      model_cfg.use_direction_classifier.isSome) ∧
    ∃ s' d', AnchorHeadSingle.forward cA aT gB self dd = some (s', d') ∧
      (∀ c, self.conv_dir_cls = some c →
        s'.forward_ret_dict "dir_cls_preds" = some (Val.tensor (cA c sf).permute0231)) ∧
      (self.conv_dir_cls = none → s'.forward_ret_dict "dir_cls_preds" = none) := by
  constructor
  · cases hU : model_cfg.use_direction_classifier <;>
      simp [mkAnchorHeadSingle, AnchorHeadSingle.init_weights, hU]
  unfold AnchorHeadSingle.forward
  rw [hsf]
  dsimp only
  cases hT : self.training with
  | true =>
    obtain ⟨gt, hgt1, hc1⟩ := hgt hT
    rw [hgt1]
    dsimp only
    simp only [reduceIte, Bool.not_true, Bool.false_or]
    cases hD : self.conv_dir_cls with
    | none =>
      cases hP : self.predict_boxes_when_training with
      | true =>
        obtain ⟨bs, hbs1⟩ := hbs (by rw [hT, hP]; rfl)
        rw [hbs1]
        dsimp only
        refine ⟨_, _, rfl, fun c hc => by simp at hc, fun _ => ?_⟩
        dsimp only
        rw [Dict.update_of_none _ _ _ hc1, Dict.insert_ne _ _ _ _ (by decide),
          Dict.insert_ne _ _ _ _ (by decide), Dict.insert_ne _ _ _ _ (by decide), hfrd]
      | false =>
        dsimp only
        refine ⟨_, _, rfl, fun c hc => by simp at hc, fun _ => ?_⟩
        dsimp only
        rw [Dict.update_of_none _ _ _ hc1, Dict.insert_ne _ _ _ _ (by decide),
          Dict.insert_ne _ _ _ _ (by decide), Dict.insert_ne _ _ _ _ (by decide), hfrd]
    | some c =>
      cases hP : self.predict_boxes_when_training with
      | true =>
        obtain ⟨bs, hbs1⟩ := hbs (by rw [hT, hP]; rfl)
        rw [hbs1]
        dsimp only
        refine ⟨_, _, rfl, fun c' hc' => ?_, fun hn => by simp at hn⟩
        rw [Option.some_inj] at hc'
        subst hc'
        dsimp only
        rw [Dict.update_of_none _ _ _ hc1, Dict.insert_same]
      | false =>
        dsimp only
        refine ⟨_, _, rfl, fun c' hc' => ?_, fun hn => by simp at hn⟩
        rw [Option.some_inj] at hc'
        subst hc'
        dsimp only
        rw [Dict.update_of_none _ _ _ hc1, Dict.insert_same]
  | false =>
    simp only [reduceIte, Bool.not_false, Bool.true_or]
    obtain ⟨bs, hbs1⟩ := hbs (by rw [hT]; rfl)
    rw [hbs1]
    dsimp only
    cases hD : self.conv_dir_cls with
    | none =>
      refine ⟨_, _, rfl, fun c hc => by simp at hc, fun _ => ?_⟩
      dsimp only
      rw [Dict.insert_ne _ _ _ _ (by decide), Dict.insert_ne _ _ _ _ (by decide),
        Dict.insert_ne _ _ _ _ (by decide), hfrd]
    | some c =>
      refine ⟨_, _, rfl, fun c' hc' => ?_, fun hn => by simp at hn⟩
      rw [Option.some_inj] at hc'
      subst hc'
      dsimp only
      rw [Dict.insert_same]

/-- Witness for C3 at a concrete config (with direction classifier) and a
concrete training-mode head whose `conv_dir_cls` exists. -/
theorem conv_dir_cls_optional_witness :
    ((mkAnchorHeadSingle wCfg 64 [3, 2] [2, 2] 7 true true 0
        (fun _ _ _ _ => 0)).conv_dir_cls.isSome ↔
      wCfg.use_direction_classifier.isSome) ∧
    ∃ s' d', AnchorHeadSingle.forward wConvApply wAssignTargets wGenBoxes wHeadTrain wDD
        = some (s', d') ∧
      (∀ c, wHeadTrain.conv_dir_cls = some c →
        s'.forward_ret_dict "dir_cls_preds" = some (Val.tensor (wConvApply c wT).permute0231)) ∧
      (wHeadTrain.conv_dir_cls = none → s'.forward_ret_dict "dir_cls_preds" = none) :=
  conv_dir_cls_optional wCfg 64 [3, 2] [2, 2] 7 true true 0 (fun _ _ _ _ => 0)
    wConvApply wAssignTargets wGenBoxes wHeadTrain wDD wT rfl rfl
    (fun _ => ⟨wT, rfl, rfl⟩) (fun _ => ⟨1, rfl⟩)

/-- C6: the batch-prediction keys. -/
theorem forward_batch_prediction_keys
    (cA : Conv2d → Tensor4 → Tensor4) (aT : Tensor4 → Dict)
    (gB : Nat → Tensor4 → Tensor4 → Option Tensor4 → Tensor4 × Tensor4)
    (self : AnchorHeadSingle) (dd : Dict) (sf : Tensor4)
    (hsf : dd.getTensor "spatial_features_2d" = some sf)
    (hgt : self.training = true → ∃ gt, dd.getTensor "gt_boxes" = some gt)
    (hbs : (!self.training || self.predict_boxes_when_training) = true →
      ∃ bs, dd.getNat "batch_size" = some bs) :
    ∃ s' d', AnchorHeadSingle.forward cA aT gB self dd = some (s', d') ∧
      ((!self.training || self.predict_boxes_when_training) = true →
        ∃ bs, dd.getNat "batch_size" = some bs ∧
          d' "batch_cls_preds" = some (Val.tensor (gB bs (cA self.conv_cls sf).permute0231
            (cA self.conv_box sf).permute0231
            (Option.map (fun c => (cA c sf).permute0231) self.conv_dir_cls)).1) ∧
          d' "batch_box_preds" = some (Val.tensor (gB bs (cA self.conv_cls sf).permute0231
            (cA self.conv_box sf).permute0231
            (Option.map (fun c => (cA c sf).permute0231) self.conv_dir_cls)).2) ∧
          d' "batch_cls_type_preds" = some (Val.tensor
            (gB bs (cA self.conv_type_cls sf).permute0231
              (cA self.conv_box sf).permute0231 none).1) ∧
          d' "cls_preds_normalized" = some (Val.bool false)) ∧
      (self.training = true ∧ self.predict_boxes_when_training = false →
        d' "batch_cls_preds" = dd "batch_cls_preds" ∧
        d' "batch_box_preds" = dd "batch_box_preds" ∧
        d' "batch_cls_type_preds" = dd "batch_cls_type_preds" ∧
        d' "cls_preds_normalized" = dd "cls_preds_normalized") := by
  unfold AnchorHeadSingle.forward
  rw [hsf]
  dsimp only
  cases hT : self.training with
  | true =>
    obtain ⟨gt, hgt1⟩ := hgt hT
    rw [hgt1]
    dsimp only
    simp only [reduceIte, Bool.not_true, Bool.false_or]
    cases hP : self.predict_boxes_when_training with
    | true =>
      obtain ⟨bs, hbs1⟩ := hbs (by rw [hT, hP]; rfl)
      rw [hbs1]
      dsimp only
      refine ⟨_, _, rfl, fun _ => ⟨bs, rfl, ?_, ?_, ?_, ?_⟩,
        fun hpc => absurd hpc.2 (by decide)⟩
      · rw [Dict.insert_ne _ _ _ _ (by decide), Dict.insert_ne _ _ _ _ (by decide),
          Dict.insert_ne _ _ _ _ (by decide), Dict.insert_same]
        cases self.conv_dir_cls <;> rfl
      · rw [Dict.insert_ne _ _ _ _ (by decide), Dict.insert_ne _ _ _ _ (by decide),
          Dict.insert_same]
        cases self.conv_dir_cls <;> rfl
      · rw [Dict.insert_ne _ _ _ _ (by decide), Dict.insert_same]
      · rw [Dict.insert_same]
    | false =>
      exact ⟨_, _, rfl, fun hp => absurd hp (by decide),
        fun _ => ⟨rfl, rfl, rfl, rfl⟩⟩
  | false =>
    simp only [reduceIte, Bool.not_false, Bool.true_or]
    obtain ⟨bs, hbs1⟩ := hbs (by rw [hT]; rfl)
    rw [hbs1]
    dsimp only
    refine ⟨_, _, rfl, fun _ => ⟨bs, rfl, ?_, ?_, ?_, ?_⟩,
      fun hpc => absurd hpc.1 (by decide)⟩
    · rw [Dict.insert_ne _ _ _ _ (by decide), Dict.insert_ne _ _ _ _ (by decide),
        Dict.insert_ne _ _ _ _ (by decide), Dict.insert_same]
      cases self.conv_dir_cls <;> rfl
    · rw [Dict.insert_ne _ _ _ _ (by decide), Dict.insert_ne _ _ _ _ (by decide),
        Dict.insert_same]
      cases self.conv_dir_cls <;> rfl
    · rw [Dict.insert_ne _ _ _ _ (by decide), Dict.insert_same]
    · rw [Dict.insert_same]

/-- Witness for C6 at a concrete training-mode head with
`predict_boxes_when_training = True`. -/
theorem forward_batch_prediction_keys_witness :
    ∃ s' d', AnchorHeadSingle.forward wConvApply wAssignTargets wGenBoxes wHeadTrain wDD
        = some (s', d') ∧
      ((!wHeadTrain.training || wHeadTrain.predict_boxes_when_training) = true →
        ∃ bs, wDD.getNat "batch_size" = some bs ∧
          d' "batch_cls_preds" = some (Val.tensor
            (wGenBoxes bs (wConvApply wHeadTrain.conv_cls wT).permute0231
              (wConvApply wHeadTrain.conv_box wT).permute0231
              (Option.map (fun c => (wConvApply c wT).permute0231)
                wHeadTrain.conv_dir_cls)).1) ∧
          d' "batch_box_preds" = some (Val.tensor
            (wGenBoxes bs (wConvApply wHeadTrain.conv_cls wT).permute0231
              (wConvApply wHeadTrain.conv_box wT).permute0231
              (Option.map (fun c => (wConvApply c wT).permute0231)
                wHeadTrain.conv_dir_cls)).2) ∧
          d' "batch_cls_type_preds" = some (Val.tensor
            (wGenBoxes bs (wConvApply wHeadTrain.conv_type_cls wT).permute0231
              (wConvApply wHeadTrain.conv_box wT).permute0231 none).1) ∧
          d' "cls_preds_normalized" = some (Val.bool false)) ∧
      (wHeadTrain.training = true ∧ wHeadTrain.predict_boxes_when_training = false →
        d' "batch_cls_preds" = wDD "batch_cls_preds" ∧
        d' "batch_box_preds" = wDD "batch_box_preds" ∧
        d' "batch_cls_type_preds" = wDD "batch_cls_type_preds" ∧
        d' "cls_preds_normalized" = wDD "cls_preds_normalized") :=
  forward_batch_prediction_keys wConvApply wAssignTargets wGenBoxes wHeadTrain wDD wT
    rfl (fun _ => ⟨wT, rfl⟩) (fun _ => ⟨1, rfl⟩)

/-- C7: `forward` performs no target assignment or box decoding itself.  In
training mode the targets merged into `forward_ret_dict` are exactly the
bindings returned by the superclass `assign_targets` applied to
`data_dict['gt_boxes']` (the theorem holds for every instantiation `aT` of
that collaborator), and the decoded batch predictions written to `data_dict`
are exactly the outputs of the superclass `generate_predicted_boxes`
(every instantiation `gB`). -/
theorem forward_delegates_targets_and_decoding
    (cA : Conv2d → Tensor4 → Tensor4) (aT : Tensor4 → Dict)
    (gB : Nat → Tensor4 → Tensor4 → Option Tensor4 → Tensor4 × Tensor4)
    (self : AnchorHeadSingle) (dd : Dict) (sf : Tensor4)
    (hsf : dd.getTensor "spatial_features_2d" = some sf)
    (hgt : self.training = true → ∃ gt, dd.getTensor "gt_boxes" = some gt)
    (hbs : (!self.training || self.predict_boxes_when_training) = true →
      ∃ bs, dd.getNat "batch_size" = some bs) :
    ∃ s' d', AnchorHeadSingle.forward cA aT gB self dd = some (s', d') ∧
      (self.training = true → ∃ gt, dd.getTensor "gt_boxes" = some gt ∧
        ∀ k v, aT gt k = some v → s'.forward_ret_dict k = some v) ∧
      ((!self.training || self.predict_boxes_when_training) = true →
        ∃ bs, dd.getNat "batch_size" = some bs ∧
          d' "batch_cls_preds" = some (Val.tensor (gB bs (cA self.conv_cls sf).permute0231
            (cA self.conv_box sf).permute0231
            (Option.map (fun c => (cA c sf).permute0231) self.conv_dir_cls)).1) ∧
          d' "batch_box_preds" = some (Val.tensor (gB bs (cA self.conv_cls sf).permute0231
            (cA self.conv_box sf).permute0231
            (Option.map (fun c => (cA c sf).permute0231) self.conv_dir_cls)).2) ∧
          d' "batch_cls_type_preds" = some (Val.tensor
            (gB bs (cA self.conv_type_cls sf).permute0231
              (cA self.conv_box sf).permute0231 none).1)) := by
  unfold AnchorHeadSingle.forward
  rw [hsf]
  dsimp only
  cases hT : self.training with
  | true =>
    obtain ⟨gt, hgt1⟩ := hgt hT
    rw [hgt1]
    dsimp only
    simp only [reduceIte, Bool.not_true, Bool.false_or]
    cases hP : self.predict_boxes_when_training with
    | true =>
      obtain ⟨bs, hbs1⟩ := hbs (by rw [hT, hP]; rfl)
      rw [hbs1]
      dsimp only
      refine ⟨_, _, rfl,
        fun _ => ⟨gt, rfl, fun k v hk => Dict.update_of_some _ _ _ _ hk⟩,
        fun _ => ⟨bs, rfl, ?_, ?_, ?_⟩⟩
      · rw [Dict.insert_ne _ _ _ _ (by decide), Dict.insert_ne _ _ _ _ (by decide),
          Dict.insert_ne _ _ _ _ (by decide), Dict.insert_same]
        cases self.conv_dir_cls <;> rfl
      · rw [Dict.insert_ne _ _ _ _ (by decide), Dict.insert_ne _ _ _ _ (by decide),
          Dict.insert_same]
        cases self.conv_dir_cls <;> rfl
      · rw [Dict.insert_ne _ _ _ _ (by decide), Dict.insert_same]
    | false =>
      exact ⟨_, _, rfl,
        fun _ => ⟨gt, rfl, fun k v hk => Dict.update_of_some _ _ _ _ hk⟩,
        fun hp => absurd hp (by decide)⟩
  | false =>
    simp only [reduceIte, Bool.not_false, Bool.true_or]
    obtain ⟨bs, hbs1⟩ := hbs (by rw [hT]; rfl)
    rw [hbs1]
    dsimp only
    refine ⟨_, _, rfl, fun hT' => absurd hT' (by decide),
      fun _ => ⟨bs, rfl, ?_, ?_, ?_⟩⟩
    · rw [Dict.insert_ne _ _ _ _ (by decide), Dict.insert_ne _ _ _ _ (by decide),
        Dict.insert_ne _ _ _ _ (by decide), Dict.insert_same]
      cases self.conv_dir_cls <;> rfl
    · rw [Dict.insert_ne _ _ _ _ (by decide), Dict.insert_ne _ _ _ _ (by decide),
        Dict.insert_same]
      cases self.conv_dir_cls <;> rfl
    · rw [Dict.insert_ne _ _ _ _ (by decide), Dict.insert_same]

/-- C8: frame condition on `data_dict` — `forward` only ever adds or
overwrites the four keys `batch_cls_preds`, `batch_box_preds`,
`batch_cls_type_preds`, `cls_preds_normalized`; every other key maps to the
same value after the call (in Python the same dict object is returned). -/
theorem forward_frame_condition
    (cA : Conv2d → Tensor4 → Tensor4) (aT : Tensor4 → Dict)
    (gB : Nat → Tensor4 → Tensor4 → Option Tensor4 → Tensor4 × Tensor4)
    (self : AnchorHeadSingle) (dd : Dict) (sf : Tensor4) (k : String)
    (hsf : dd.getTensor "spatial_features_2d" = some sf)
    (hgt : self.training = true → ∃ gt, dd.getTensor "gt_boxes" = some gt)
    (hbs : (!self.training || self.predict_boxes_when_training) = true →
      ∃ bs, dd.getNat "batch_size" = some bs)
    (hk1 : k ≠ "batch_cls_preds") (hk2 : k ≠ "batch_box_preds")
    (hk3 : k ≠ "batch_cls_type_preds") (hk4 : k ≠ "cls_preds_normalized") :
    ∃ s' d', AnchorHeadSingle.forward cA aT gB self dd = some (s', d') ∧
      d' k = dd k := by
  unfold AnchorHeadSingle.forward
  rw [hsf]
  dsimp only
  cases hT : self.training with
  | true =>
    obtain ⟨gt, hgt1⟩ := hgt hT
    rw [hgt1]
    dsimp only
    simp only [reduceIte, Bool.not_true, Bool.false_or]
    cases hP : self.predict_boxes_when_training with
    | true =>
      obtain ⟨bs, hbs1⟩ := hbs (by rw [hT, hP]; rfl)
      rw [hbs1]
      dsimp only
      refine ⟨_, _, rfl, ?_⟩
      rw [Dict.insert_ne _ _ _ _ hk4, Dict.insert_ne _ _ _ _ hk3,
        Dict.insert_ne _ _ _ _ hk2, Dict.insert_ne _ _ _ _ hk1]
    | false =>
      exact ⟨_, _, rfl, rfl⟩
  | false =>
    simp only [reduceIte, Bool.not_false, Bool.true_or]
    obtain ⟨bs, hbs1⟩ := hbs (by rw [hT]; rfl)
    rw [hbs1]
    dsimp only
    refine ⟨_, _, rfl, ?_⟩
    rw [Dict.insert_ne _ _ _ _ hk4, Dict.insert_ne _ _ _ _ hk3,
      Dict.insert_ne _ _ _ _ hk2, Dict.insert_ne _ _ _ _ hk1]

/-- Witness for C7 at a concrete training-mode head. -/
theorem forward_delegates_targets_and_decoding_witness :
    ∃ s' d', AnchorHeadSingle.forward wConvApply wAssignTargets wGenBoxes wHeadTrain wDD
        = some (s', d') ∧
      (wHeadTrain.training = true → ∃ gt, wDD.getTensor "gt_boxes" = some gt ∧
        ∀ k v, wAssignTargets gt k = some v → s'.forward_ret_dict k = some v) ∧
      ((!wHeadTrain.training || wHeadTrain.predict_boxes_when_training) = true →
        ∃ bs, wDD.getNat "batch_size" = some bs ∧
          d' "batch_cls_preds" = some (Val.tensor
            (wGenBoxes bs (wConvApply wHeadTrain.conv_cls wT).permute0231
              (wConvApply wHeadTrain.conv_box wT).permute0231
              (Option.map (fun c => (wConvApply c wT).permute0231)
                wHeadTrain.conv_dir_cls)).1) ∧
          d' "batch_box_preds" = some (Val.tensor
            (wGenBoxes bs (wConvApply wHeadTrain.conv_cls wT).permute0231
              (wConvApply wHeadTrain.conv_box wT).permute0231
              (Option.map (fun c => (wConvApply c wT).permute0231)
                wHeadTrain.conv_dir_cls)).2) ∧
          d' "batch_cls_type_preds" = some (Val.tensor
            (wGenBoxes bs (wConvApply wHeadTrain.conv_type_cls wT).permute0231
              (wConvApply wHeadTrain.conv_box wT).permute0231 none).1)) :=
  forward_delegates_targets_and_decoding wConvApply wAssignTargets wGenBoxes wHeadTrain wDD
    wT rfl (fun _ => ⟨wT, rfl⟩) (fun _ => ⟨1, rfl⟩)

/-- Witness for C8: the pre-existing key `spatial_features_2d` is unchanged by
a concrete call of `forward`. -/
theorem forward_frame_condition_witness :
    ∃ s' d', AnchorHeadSingle.forward wConvApply wAssignTargets wGenBoxes wHeadTrain wDD
        = some (s', d') ∧
      d' "spatial_features_2d" = wDD "spatial_features_2d" :=
  forward_frame_condition wConvApply wAssignTargets wGenBoxes wHeadTrain wDD wT
    "spatial_features_2d" rfl (fun _ => ⟨wT, rfl⟩) (fun _ => ⟨1, rfl⟩)
    (by decide) (by decide) (by decide) (by decide)

/-- Counterexample to C4 as stated: a head in training mode constructed with
`predict_boxes_when_training=False` returns its input `data_dict` unchanged —
the returned value contains no per-anchor prediction entry and no loss value
under any of the keys `forward` can write. -/
theorem forward_training_no_predict_returns_input_unchanged :
    (AnchorHeadSingle.forward wConvApply wAssignTargets wGenBoxes cxHead wDD).map
        (fun r => r.2) = some wDD ∧
    (AnchorHeadSingle.forward wConvApply wAssignTargets wGenBoxes cxHead wDD).map
        (fun r => (r.2 "batch_cls_preds", r.2 "batch_box_preds",
          r.2 "batch_cls_type_preds", r.2 "cls_preds_normalized",
          r.2 "loss", r.2 "rpn_loss_cls"))
      = some (none, none, none, none, none, none) :=
  ⟨rfl, rfl⟩

/-- C4 amended: on every successful call, `forward` stores per-anchor
predictions in `self.forward_ret_dict` (keys `cls_preds`, `box_preds`,
`cls_type_preds`); the *returned* `data_dict` carries batch predictions iff
the module is not in training mode or `predict_boxes_when_training` is set,
and `forward` itself never returns a loss value — in training mode with the
flag unset it returns the input dict unchanged (the loss is computed
separately by `get_cls_layer_loss` from the stored targets). -/
theorem forward_outputs_amended
    (cA : Conv2d → Tensor4 → Tensor4) (aT : Tensor4 → Dict)
    (gB : Nat → Tensor4 → Tensor4 → Option Tensor4 → Tensor4 × Tensor4)
    (self : AnchorHeadSingle) (dd : Dict) (sf : Tensor4)
    (hsf : dd.getTensor "spatial_features_2d" = some sf)
    (hgt : self.training = true → ∃ gt, dd.getTensor "gt_boxes" = some gt)
    (hbs : (!self.training || self.predict_boxes_when_training) = true →
      ∃ bs, dd.getNat "batch_size" = some bs) :
    ∃ s' d', AnchorHeadSingle.forward cA aT gB self dd = some (s', d') ∧
      ((s'.forward_ret_dict "cls_preds").isSome = true ∧
       (s'.forward_ret_dict "box_preds").isSome = true ∧
       (s'.forward_ret_dict "cls_type_preds").isSome = true) ∧
      ((!self.training || self.predict_boxes_when_training) = true →
        ( d' "batch_cls_preds").isSome = true ∧
        ( d' "batch_box_preds").isSome = true ∧
        ( d' "batch_cls_type_preds").isSome = true) ∧
      (self.training = true ∧ self.predict_boxes_when_training = false →
        d' = dd) := by
  unfold AnchorHeadSingle.forward
  rw [hsf]
  dsimp only
  cases hT : self.training with
  | true =>
    obtain ⟨gt, hgt1⟩ := hgt hT
    rw [hgt1]
    dsimp only
    simp only [reduceIte, Bool.not_true, Bool.false_or]
    cases hD : self.conv_dir_cls with
    | none =>
      cases hP : self.predict_boxes_when_training with
      | true =>
        obtain ⟨bs, hbs1⟩ := hbs (by rw [hT, hP]; rfl)
        rw [hbs1]
        dsimp only
        refine ⟨_, _, rfl, ⟨?_, ?_, ?_⟩, fun _ => ⟨?_, ?_, ?_⟩,
          fun hpc => absurd hpc.2 (by decide)⟩ <;> dsimp only
        · exact Dict.update_isSome _ _ _ (by
            rw [Dict.insert_ne _ _ _ _ (by decide), Dict.insert_ne _ _ _ _ (by decide),
              Dict.insert_same]; rfl)
        · exact Dict.update_isSome _ _ _ (by
            rw [Dict.insert_ne _ _ _ _ (by decide), Dict.insert_same]; rfl)
        · exact Dict.update_isSome _ _ _ (by rw [Dict.insert_same]; rfl)
        · rw [Dict.insert_ne _ _ _ _ (by decide), Dict.insert_ne _ _ _ _ (by decide),
            Dict.insert_ne _ _ _ _ (by decide), Dict.insert_same]; rfl
        · rw [Dict.insert_ne _ _ _ _ (by decide), Dict.insert_ne _ _ _ _ (by decide),
            Dict.insert_same]; rfl
        · rw [Dict.insert_ne _ _ _ _ (by decide), Dict.insert_same]; rfl
      | false =>
        refine ⟨_, _, rfl, ⟨?_, ?_, ?_⟩, fun hp => absurd hp (by decide),
          fun _ => rfl⟩ <;> dsimp only
        · exact Dict.update_isSome _ _ _ (by
            rw [Dict.insert_ne _ _ _ _ (by decide), Dict.insert_ne _ _ _ _ (by decide),
              Dict.insert_same]; rfl)
        · exact Dict.update_isSome _ _ _ (by
            rw [Dict.insert_ne _ _ _ _ (by decide), Dict.insert_same]; rfl)
        · exact Dict.update_isSome _ _ _ (by rw [Dict.insert_same]; rfl)
    | some c =>
      cases hP : self.predict_boxes_when_training with
      | true =>
        obtain ⟨bs, hbs1⟩ := hbs (by rw [hT, hP]; rfl)
        rw [hbs1]
        dsimp only
        refine ⟨_, _, rfl, ⟨?_, ?_, ?_⟩, fun _ => ⟨?_, ?_, ?_⟩,
          fun hpc => absurd hpc.2 (by decide)⟩ <;> dsimp only
        · exact Dict.update_isSome _ _ _ (by
            rw [Dict.insert_ne _ _ _ _ (by decide), Dict.insert_ne _ _ _ _ (by decide),
              Dict.insert_ne _ _ _ _ (by decide), Dict.insert_same]; rfl)
        · exact Dict.update_isSome _ _ _ (by
            rw [Dict.insert_ne _ _ _ _ (by decide), Dict.insert_ne _ _ _ _ (by decide),
              Dict.insert_same]; rfl)
        · exact Dict.update_isSome _ _ _ (by
            rw [Dict.insert_ne _ _ _ _ (by decide), Dict.insert_same]; rfl)
        · rw [Dict.insert_ne _ _ _ _ (by decide), Dict.insert_ne _ _ _ _ (by decide),
            Dict.insert_ne _ _ _ _ (by decide), Dict.insert_same]; rfl
        · rw [Dict.insert_ne _ _ _ _ (by decide), Dict.insert_ne _ _ _ _ (by decide),
            Dict.insert_same]; rfl
        · rw [Dict.insert_ne _ _ _ _ (by decide), Dict.insert_same]; rfl
      | false =>
        refine ⟨_, _, rfl, ⟨?_, ?_, ?_⟩, fun hp => absurd hp (by decide),
          fun _ => rfl⟩ <;> dsimp only
        · exact Dict.update_isSome _ _ _ (by
            rw [Dict.insert_ne _ _ _ _ (by decide), Dict.insert_ne _ _ _ _ (by decide),
              Dict.insert_ne _ _ _ _ (by decide), Dict.insert_same]; rfl)
        · exact Dict.update_isSome _ _ _ (by
            rw [Dict.insert_ne _ _ _ _ (by decide), Dict.insert_ne _ _ _ _ (by decide),
              Dict.insert_same]; rfl)
        · exact Dict.update_isSome _ _ _ (by
            rw [Dict.insert_ne _ _ _ _ (by decide), Dict.insert_same]; rfl)
  | false =>
    simp only [reduceIte, Bool.not_false, Bool.true_or]
    obtain ⟨bs, hbs1⟩ := hbs (by rw [hT]; rfl)
    rw [hbs1]
    dsimp only
    cases hD : self.conv_dir_cls with
    | none =>
      refine ⟨_, _, rfl, ⟨?_, ?_, ?_⟩, fun _ => ⟨?_, ?_, ?_⟩,
        fun hpc => absurd hpc.1 (by decide)⟩ <;> dsimp only
      · rw [Dict.insert_ne _ _ _ _ (by decide), Dict.insert_ne _ _ _ _ (by decide),
          Dict.insert_same]; rfl
      · rw [Dict.insert_ne _ _ _ _ (by decide), Dict.insert_same]; rfl
      · rw [Dict.insert_same]; rfl
      · rw [Dict.insert_ne _ _ _ _ (by decide), Dict.insert_ne _ _ _ _ (by decide),
          Dict.insert_ne _ _ _ _ (by decide), Dict.insert_same]; rfl
      · rw [Dict.insert_ne _ _ _ _ (by decide), Dict.insert_ne _ _ _ _ (by decide),
          Dict.insert_same]; rfl
      · rw [Dict.insert_ne _ _ _ _ (by decide), Dict.insert_same]; rfl
    | some c =>
      refine ⟨_, _, rfl, ⟨?_, ?_, ?_⟩, fun _ => ⟨?_, ?_, ?_⟩,
        fun hpc => absurd hpc.1 (by decide)⟩ <;> dsimp only
      · rw [Dict.insert_ne _ _ _ _ (by decide), Dict.insert_ne _ _ _ _ (by decide),
          Dict.insert_ne _ _ _ _ (by decide), Dict.insert_same]; rfl
      · rw [Dict.insert_ne _ _ _ _ (by decide), Dict.insert_ne _ _ _ _ (by decide),
          Dict.insert_same]; rfl
      · rw [Dict.insert_ne _ _ _ _ (by decide), Dict.insert_same]; rfl
      · rw [Dict.insert_ne _ _ _ _ (by decide), Dict.insert_ne _ _ _ _ (by decide),
          Dict.insert_ne _ _ _ _ (by decide), Dict.insert_same]; rfl
      · rw [Dict.insert_ne _ _ _ _ (by decide), Dict.insert_ne _ _ _ _ (by decide),
          Dict.insert_same]; rfl
      · rw [Dict.insert_ne _ _ _ _ (by decide), Dict.insert_same]; rfl

/-- Witness for the amended C4 at a concrete training-mode head. -/
theorem forward_outputs_amended_witness :
    ∃ s' d', AnchorHeadSingle.forward wConvApply wAssignTargets wGenBoxes wHeadTrain wDD
        = some (s', d') ∧
      ((s'.forward_ret_dict "cls_preds").isSome = true ∧
       (s'.forward_ret_dict "box_preds").isSome = true ∧
       (s'.forward_ret_dict "cls_type_preds").isSome = true) ∧
      ((!wHeadTrain.training || wHeadTrain.predict_boxes_when_training) = true →
        ( d' "batch_cls_preds").isSome = true ∧
        ( d' "batch_box_preds").isSome = true ∧
        ( d' "batch_cls_type_preds").isSome = true) ∧
      (wHeadTrain.training = true ∧ wHeadTrain.predict_boxes_when_training = false →
        d' = wDD) :=
  forward_outputs_amended wConvApply wAssignTargets wGenBoxes wHeadTrain wDD wT
    rfl (fun _ => ⟨wT, rfl⟩) (fun _ => ⟨1, rfl⟩)

/-- C5: after construction `num_anchors_per_location` is the sum of the
per-class anchor counts set by the superclass, the prediction layers' output
widths are `num_anchors_per_location` times the configured sizes
(`num_class[0]`, `box_coder.code_size`, `num_class[1]`, `NUM_DIR_BINS`), and
the later operations of this file (`init_weights`, `forward`) never change
these fields (`get_cls_layer_loss` does not modify the module at all). -/
theorem channel_width_invariant
    (model_cfg : ModelCfg) (ic : Nat) (nc apl : List Nat) (ccs : Nat)
    (pbwt tr : Bool) (cb : ℚ) (bw : Nat → Nat → Nat → Nat → ℚ)
    (cA : Conv2d → Tensor4 → Tensor4) (aT : Tensor4 → Dict)
    (gB : Nat → Tensor4 → Tensor4 → Option Tensor4 → Tensor4 × Tensor4)
    (self : AnchorHeadSingle) (dd : Dict) (sf : Tensor4)
    (hsf : dd.getTensor "spatial_features_2d" = some sf)
    (hgt : self.training = true → ∃ gt, dd.getTensor "gt_boxes" = some gt)
    (hbs : (!self.training || self.predict_boxes_when_training) = true →
      ∃ bs, dd.getNat "batch_size" = some bs) :
    ((mkAnchorHeadSingle model_cfg ic nc apl ccs pbwt tr cb bw).num_anchors_per_location
        = apl.sum ∧
      (mkAnchorHeadSingle model_cfg ic nc apl ccs pbwt tr cb bw).conv_cls.out_channels
        = (mkAnchorHeadSingle model_cfg ic nc apl ccs pbwt tr cb bw).num_anchors_per_location
          * nc.getD 0 0 ∧
      (mkAnchorHeadSingle model_cfg ic nc apl ccs pbwt tr cb bw).conv_box.out_channels
        = (mkAnchorHeadSingle model_cfg ic nc apl ccs pbwt tr cb bw).num_anchors_per_location
          * ccs ∧
      (mkAnchorHeadSingle model_cfg ic nc apl ccs pbwt tr cb bw).conv_type_cls.out_channels
        = (mkAnchorHeadSingle model_cfg ic nc apl ccs pbwt tr cb bw).num_anchors_per_location
          * nc.getD 1 0 ∧
      (∀ c, (mkAnchorHeadSingle model_cfg ic nc apl ccs pbwt tr cb bw).conv_dir_cls = some c →
        c.out_channels
          = (mkAnchorHeadSingle model_cfg ic nc apl ccs pbwt tr cb bw).num_anchors_per_location
            * model_cfg.num_dir_bins)) ∧
    (∀ q w, (AnchorHeadSingle.init_weights self q w).num_anchors_per_location
          = self.num_anchors_per_location ∧
        (AnchorHeadSingle.init_weights self q w).conv_cls.out_channels
          = self.conv_cls.out_channels ∧
        (AnchorHeadSingle.init_weights self q w).conv_box.out_channels
          = self.conv_box.out_channels ∧
        (AnchorHeadSingle.init_weights self q w).conv_type_cls.out_channels
          = self.conv_type_cls.out_channels ∧
        (AnchorHeadSingle.init_weights self q w).conv_dir_cls = self.conv_dir_cls) ∧
    ∃ s' d', AnchorHeadSingle.forward cA aT gB self dd = some (s', d') ∧
      s'.num_anchors_per_location = self.num_anchors_per_location ∧
      s'.conv_cls = self.conv_cls ∧ s'.conv_box = self.conv_box ∧
      s'.conv_type_cls = self.conv_type_cls ∧ s'.conv_dir_cls = self.conv_dir_cls := by
  refine ⟨⟨rfl, rfl, rfl, rfl, fun c hc => ?_⟩,
    fun q w => ⟨rfl, rfl, rfl, rfl, rfl⟩, ?_⟩
  · simp only [mkAnchorHeadSingle, AnchorHeadSingle.init_weights] at hc
    split at hc
    · rw [Option.some_inj] at hc
      subst hc
      rfl
    · exact Option.noConfusion hc
  · unfold AnchorHeadSingle.forward
    rw [hsf]
    dsimp only
    cases hT : self.training with
    | true =>
      obtain ⟨gt, hgt1⟩ := hgt hT
      rw [hgt1]
      dsimp only
      simp only [reduceIte, Bool.not_true, Bool.false_or]
      cases hP : self.predict_boxes_when_training with
      | true =>
        obtain ⟨bs, hbs1⟩ := hbs (by rw [hT, hP]; rfl)
        rw [hbs1]
        dsimp only
        exact ⟨_, _, rfl, rfl, rfl, rfl, rfl, rfl⟩
      | false =>
        exact ⟨_, _, rfl, rfl, rfl, rfl, rfl, rfl⟩
    | false =>
      simp only [reduceIte, Bool.not_false, Bool.true_or]
      obtain ⟨bs, hbs1⟩ := hbs (by rw [hT]; rfl)
      rw [hbs1]
      dsimp only
      exact ⟨_, _, rfl, rfl, rfl, rfl, rfl, rfl⟩

/-- Witness for C5 at a concrete config and head. -/
theorem channel_width_invariant_witness :
    ((mkAnchorHeadSingle wCfg 64 [3, 2] [2, 2] 7 true true 0
        (fun _ _ _ _ => 0)).num_anchors_per_location = [2, 2].sum ∧
      (mkAnchorHeadSingle wCfg 64 [3, 2] [2, 2] 7 true true 0
        (fun _ _ _ _ => 0)).conv_cls.out_channels
        = (mkAnchorHeadSingle wCfg 64 [3, 2] [2, 2] 7 true true 0
            (fun _ _ _ _ => 0)).num_anchors_per_location * [3, 2].getD 0 0 ∧
      (mkAnchorHeadSingle wCfg 64 [3, 2] [2, 2] 7 true true 0
        (fun _ _ _ _ => 0)).conv_box.out_channels
        = (mkAnchorHeadSingle wCfg 64 [3, 2] [2, 2] 7 true true 0
            (fun _ _ _ _ => 0)).num_anchors_per_location * 7 ∧
      (mkAnchorHeadSingle wCfg 64 [3, 2] [2, 2] 7 true true 0
        (fun _ _ _ _ => 0)).conv_type_cls.out_channels
        = (mkAnchorHeadSingle wCfg 64 [3, 2] [2, 2] 7 true true 0
            (fun _ _ _ _ => 0)).num_anchors_per_location * [3, 2].getD 1 0 ∧
      (∀ c, (mkAnchorHeadSingle wCfg 64 [3, 2] [2, 2] 7 true true 0
          (fun _ _ _ _ => 0)).conv_dir_cls = some c →
        c.out_channels
          = (mkAnchorHeadSingle wCfg 64 [3, 2] [2, 2] 7 true true 0
              (fun _ _ _ _ => 0)).num_anchors_per_location * wCfg.num_dir_bins)) ∧
    (∀ q w, (AnchorHeadSingle.init_weights wHeadTrain q w).num_anchors_per_location
          = wHeadTrain.num_anchors_per_location ∧
        (AnchorHeadSingle.init_weights wHeadTrain q w).conv_cls.out_channels
          = wHeadTrain.conv_cls.out_channels ∧
        (AnchorHeadSingle.init_weights wHeadTrain q w).conv_box.out_channels
          = wHeadTrain.conv_box.out_channels ∧
        (AnchorHeadSingle.init_weights wHeadTrain q w).conv_type_cls.out_channels
          = wHeadTrain.conv_type_cls.out_channels ∧
        (AnchorHeadSingle.init_weights wHeadTrain q w).conv_dir_cls
          = wHeadTrain.conv_dir_cls) ∧
    ∃ s' d', AnchorHeadSingle.forward wConvApply wAssignTargets wGenBoxes wHeadTrain wDD
        = some (s', d') ∧
      s'.num_anchors_per_location = wHeadTrain.num_anchors_per_location ∧
      s'.conv_cls = wHeadTrain.conv_cls ∧ s'.conv_box = wHeadTrain.conv_box ∧
      s'.conv_type_cls = wHeadTrain.conv_type_cls ∧
      s'.conv_dir_cls = wHeadTrain.conv_dir_cls :=
  channel_width_invariant wCfg 64 [3, 2] [2, 2] 7 true true 0 (fun _ _ _ _ => 0)
    wConvApply wAssignTargets wGenBoxes wHeadTrain wDD wT rfl
    (fun _ => ⟨wT, rfl⟩) (fun _ => ⟨1, rfl⟩)

/-- C2: the first result of `get_cls_layer_loss` is the sum of exactly two
weighted classification losses — the object-category loss built from
`cls_preds` against one-hot targets from `box_cls_labels` with `num_class[0]`
labels, plus the type-category loss built from `cls_type_preds` against
one-hot targets from `box_cls_type_labels` with `num_class[1]` labels. -/
theorem get_cls_layer_loss_is_sum_of_two_weighted_losses
    (getOneHot : Tensor4 → Nat → DType → Tensor3)
    (getClsWeights : Tensor4 → Tensor4)
    (getWeightedLoss : Tensor3 → Tensor3 → Tensor4 → Nat → ℚ)
    (self : AnchorHeadSingle) (cp bcl ctp bctl : Tensor4)
    (n0 n1 : Nat) (rest : List Nat)
    (h0 : self.forward_ret_dict.getTensor "cls_preds" = some cp)
    (h1 : self.forward_ret_dict.getTensor "box_cls_labels" = some bcl)
    (h2 : self.forward_ret_dict.getTensor "cls_type_preds" = some ctp)
    (h3 : self.forward_ret_dict.getTensor "box_cls_type_labels" = some bctl)
    (hnc : self.num_class = n0 :: n1 :: rest) :
    ∃ tb, AnchorHeadSingle.get_cls_layer_loss getOneHot getClsWeights getWeightedLoss self
      = some (getWeightedLoss (cp.view3 cp.d0 n0) (getOneHot bcl n0 cp.dtype)
            (getClsWeights bcl) cp.d0
          + getWeightedLoss (ctp.view3 cp.d0 n1) (getOneHot bctl n1 ctp.dtype)
            (getClsWeights bctl) cp.d0, tb) := by
  unfold AnchorHeadSingle.get_cls_layer_loss
  rw [h0, h1, h2, h3, hnc]
  simp only [List.getD_cons_zero, List.getD_cons_succ]
  exact ⟨_, rfl⟩

/-- Witness for C2 at a concrete head whose `forward_ret_dict` holds the four
entries. -/
theorem get_cls_layer_loss_is_sum_of_two_weighted_losses_witness :
    ∃ tb, AnchorHeadSingle.get_cls_layer_loss wGetOneHot wGetClsWeights wGetWeightedLoss
        wLossHead
      = some (wGetWeightedLoss (wT.view3 wT.d0 3) (wGetOneHot wT 3 wT.dtype)
            (wGetClsWeights wT) wT.d0
          + wGetWeightedLoss (wT.view3 wT.d0 2) (wGetOneHot wT 2 wT.dtype)
            (wGetClsWeights wT) wT.d0, tb) :=
  get_cls_layer_loss_is_sum_of_two_weighted_losses wGetOneHot wGetClsWeights
    wGetWeightedLoss wLossHead wT wT wT wT 3 2 [] rfl rfl rfl rfl rfl

/-- C9: `get_cls_layer_loss` succeeds exactly when `forward_ret_dict` holds
usable values under all four keys `cls_preds`, `box_cls_labels`,
`cls_type_preds`, `box_cls_type_labels`; a missing (or `None`) entry makes the
call raise (`cls_preds`/`box_cls_labels` are read by direct indexing, and the
`.get`-with-default reads of the type entries are dereferenced unconditionally). -/
theorem get_cls_layer_loss_succeeds_iff_keys_present
    (getOneHot : Tensor4 → Nat → DType → Tensor3)
    (getClsWeights : Tensor4 → Tensor4)
    (getWeightedLoss : Tensor3 → Tensor3 → Tensor4 → Nat → ℚ)
    (self : AnchorHeadSingle) :
    (AnchorHeadSingle.get_cls_layer_loss getOneHot getClsWeights getWeightedLoss
        self).isSome = true ↔
      ((self.forward_ret_dict.getTensor "cls_preds").isSome = true ∧
       (self.forward_ret_dict.getTensor "box_cls_labels").isSome = true ∧
       (self.forward_ret_dict.getTensor "cls_type_preds").isSome = true ∧
       (self.forward_ret_dict.getTensor "box_cls_type_labels").isSome = true) := by
  unfold AnchorHeadSingle.get_cls_layer_loss
  cases h0 : self.forward_ret_dict.getTensor "cls_preds" with
  | none => simp
  | some cp =>
    cases h1 : self.forward_ret_dict.getTensor "box_cls_labels" with
    | none => simp
    | some bcl =>
      cases h2 : self.forward_ret_dict.getTensor "cls_type_preds" with
      | none => simp
      | some ctp =>
        cases h3 : self.forward_ret_dict.getTensor "box_cls_type_labels" with
        | none => simp
        | some bctl => simp

/-- C10: the `tb_dict` returned by `get_cls_layer_loss` has exactly the keys
`rpn_loss_type_cls`, `rpn_loss_fdi_cls`, `rpn_loss_cls`, and the value under
`rpn_loss_cls` is the sum of the values under the other two. -/
theorem get_cls_layer_loss_tb_dict_keys_and_total
    (getOneHot : Tensor4 → Nat → DType → Tensor3)
    (getClsWeights : Tensor4 → Tensor4)
    (getWeightedLoss : Tensor3 → Tensor3 → Tensor4 → Nat → ℚ)
    (self : AnchorHeadSingle) (cp bcl ctp bctl : Tensor4)
    (h0 : self.forward_ret_dict.getTensor "cls_preds" = some cp)
    (h1 : self.forward_ret_dict.getTensor "box_cls_labels" = some bcl)
    (h2 : self.forward_ret_dict.getTensor "cls_type_preds" = some ctp)
    (h3 : self.forward_ret_dict.getTensor "box_cls_type_labels" = some bctl) :
    ∃ lf lt, AnchorHeadSingle.get_cls_layer_loss getOneHot getClsWeights getWeightedLoss
        self
      = some (lf + lt,
          [("rpn_loss_type_cls", lt), ("rpn_loss_fdi_cls", lf),
           ("rpn_loss_cls", lf + lt)]) := by
  unfold AnchorHeadSingle.get_cls_layer_loss
  rw [h0, h1, h2, h3]
  exact ⟨_, _, rfl⟩

/-- Witness for C10 at a concrete head. -/
theorem get_cls_layer_loss_tb_dict_keys_and_total_witness :
    ∃ lf lt, AnchorHeadSingle.get_cls_layer_loss wGetOneHot wGetClsWeights
        wGetWeightedLoss wLossHead
      = some (lf + lt,
          [("rpn_loss_type_cls", lt), ("rpn_loss_fdi_cls", lf),
           ("rpn_loss_cls", lf + lt)]) :=
  get_cls_layer_loss_tb_dict_keys_and_total wGetOneHot wGetClsWeights wGetWeightedLoss
    wLossHead wT wT wT wT rfl rfl rfl rfl
